import Mathlib

/-!
Verification of the Park_it occupancy decision engine.

Shallow embedding of the two occupancy strategies of the repository:
the detection-overlap strategy of `server/opencv_service/yolo_detector.py`
(`calculate_iou`, `polygon_to_bbox`, `check_slot_occupancy`,
`detect_occupancy`) and the geometric pixel-count strategy of
`server/opencv_service/parking_lot_tracker.py` (`detect_occupancy`).
Python floats are modelled by rationals; numpy/OpenCV raster collaborators
(adaptive threshold, fillPoly) are abstracted as boolean pixel functions;
exceptions caught by the per-slot try/except become `Option`/`Except`.
-/

namespace ParkIt

/-- Axis-aligned bounding box, the source's `[x_min, y_min, x_max, y_max]`. -/
structure Box where
  xMin : ℚ
  yMin : ℚ
  xMax : ℚ
  yMax : ℚ
deriving Repr, DecidableEq

/-- A vehicle detection: bounding box plus confidence (the `class` field is
always the car class after filtering and carries no information). -/
structure Vehicle where
  bbox : Box
  confidence : ℚ
deriving Repr, DecidableEq

/-- Embedding of `YOLODetector.calculate_iou` (yolo_detector.py lines 113-143,
identical to `ParkingDetector.calculate_iou` in test22.py lines 302-323). -/
def calculate_iou (box1 box2 : Box) : ℚ :=
  let interXMin := max box1.xMin box2.xMin
  let interYMin := max box1.yMin box2.yMin
  let interXMax := min box1.xMax box2.xMax
  let interYMax := min box1.yMax box2.yMax
  if interXMax < interXMin ∨ interYMax < interYMin then 0
  else
    let interArea := (interXMax - interXMin) * (interYMax - interYMin)
    let box1Area := (box1.xMax - box1.xMin) * (box1.yMax - box1.yMin)
    let box2Area := (box2.xMax - box2.xMin) * (box2.yMax - box2.yMin)
    let unionArea := box1Area + box2Area - interArea
    if 0 < unionArea then interArea / unionArea else 0

/-- Embedding of `YOLODetector.polygon_to_bbox` (yolo_detector.py lines
98-111): componentwise min/max over the points.  On an empty polygon
`np.min` raises ValueError, modelled by `none`. -/
def polygon_to_bbox : List (ℚ × ℚ) → Option Box
  | [] => none
  | p :: ps =>
      some (ps.foldl
        (fun b q => ⟨min b.xMin q.1, min b.yMin q.2, max b.xMax q.1, max b.yMax q.2⟩)
        ⟨p.1, p.2, p.1, p.2⟩)

/-- One iteration of the vehicle loop of `YOLODetector.check_slot_occupancy`
(yolo_detector.py lines 165-169): the accumulator `(max_iou, matched_vehicle)`
is replaced only when the current IoU strictly exceeds the running maximum. -/
def iouStep (slotBbox : Box) (acc : ℚ × Option Vehicle) (v : Vehicle) :
    ℚ × Option Vehicle :=
  let iou := calculate_iou slotBbox v.bbox
  if acc.1 < iou then (iou, some v) else acc

/-- Embedding of `YOLODetector.check_slot_occupancy` (yolo_detector.py lines
145-173): fold over the vehicle list keeping the running maximum IoU
(starting at 0.0) and the vehicle that strictly improved it; occupied iff
the final maximum is at least the threshold.  `none` when the polygon is
empty (the ValueError of `polygon_to_bbox`). -/
def check_slot_occupancy (occupiedThreshold : ℚ) (slotPolygon : List (ℚ × ℚ))
    (vehicleBoxes : List Vehicle) : Option (Bool × ℚ × Option Vehicle) :=
  (polygon_to_bbox slotPolygon).map (fun slotBbox =>
    let r := vehicleBoxes.foldl (iouStep slotBbox) (0, none)
    (decide (occupiedThreshold ≤ r.1), r.1, r.2))

/-- The maximum IoU between a slot bounding box and a list of vehicle boxes,
with 0 for the empty list (the source's running maximum starts at 0.0). -/
def maxIou (slotBbox : Box) (vehicleBoxes : List Vehicle) : ℚ :=
  vehicleBoxes.foldl (fun m v => max m (calculate_iou slotBbox v.bbox)) 0

/-- Two boxes overlap in at most a zero-area region on some axis: their
x-extents or their y-extents intersect in at most a point.  This is the
geometric sense of boxes that do not overlap on at least one axis. -/
def zeroOverlap (a b : Box) : Prop :=
  min a.xMax b.xMax ≤ max a.xMin b.xMin ∨ min a.yMax b.yMax ≤ max a.yMin b.yMin

instance (a b : Box) : Decidable (zeroOverlap a b) := by
  unfold zeroOverlap; infer_instance

/-- One entry of a slot's `coordinates` list, as dispatched by the
`isinstance` chain of both strategies (yolo_detector.py lines 221-234,
parking_lot_tracker.py lines 84-98):
a dict (whose `x`/`y` keys may be absent, `coord.get` then yields the
default 0), a list/tuple with at least two numeric elements (extras are
ignored by `coord[0]`/`coord[1]`), a list/tuple with fewer than two
elements (indexing raises, aborting the whole slot via the outer
try/except), or a value of any other type (silently skipped by the
final `else: continue`). -/
inductive CoordEntry where
  | keyed (x y : Option ℚ)
  | pair (x y : ℚ)
  | shortList
  | other
deriving Repr, DecidableEq

/-- A slot record as consumed by both strategies: identity fields, the raw
coordinate list, and the optional stored reference dimensions
(`image_width`/`image_height`, falling back to the frame's dimensions). -/
structure Slot where
  slotId : Option ℕ
  slotNumber : Option ℕ
  coordinates : List CoordEntry
  imageWidth : Option ℚ
  imageHeight : Option ℚ
deriving Repr, DecidableEq

/-- Conversion of one coordinate entry to a pixel point in the yolo
strategy (yolo_detector.py lines 222-234): `ok (some p)` when a point is
produced, `ok none` when the entry is skipped, `error ()` when indexing a
short list raises. A missing dict key contributes the default 0. -/
def convertCoord (w h : ℚ) : CoordEntry → Except Unit (Option (ℚ × ℚ))
  | .keyed x y => .ok (some ((x.getD 0) * w, (y.getD 0) * h))
  | .pair x y => .ok (some (x * w, y * h))
  | .shortList => .error ()
  | .other => .ok none

/-- The `pixel_coords` accumulation loop of yolo_detector.py lines 220-234:
skipped entries contribute nothing, a raising entry aborts the slot. -/
def convertCoords (w h : ℚ) : List CoordEntry → Except Unit (List (ℚ × ℚ))
  | [] => .ok []
  | c :: cs =>
      match convertCoord w h c with
      | .error _ => .error ()
      | .ok none => convertCoords w h cs
      | .ok (some p) => (convertCoords w h cs).map (p :: ·)

/-- A per-slot result record of `YOLODetector.detect_occupancy`
(yolo_detector.py lines 245-265). `signalValue` models the source's
occupancy_ratio key, which carries the max-IoU value; `vehicleMetadata` is
the matched vehicle and its IoU, present exactly when the slot is occupied
and a vehicle was matched (`if is_occupied and matched_vehicle`). -/
structure SlotResult where
  slotId : Option ℕ
  slotNumber : Option ℕ
  status : String
  confidence : ℚ
  signalValue : ℚ
  vehicleMetadata : Option (Vehicle × ℚ)
deriving Repr, DecidableEq

/-- The body of the per-slot loop of `YOLODetector.detect_occupancy`
(yolo_detector.py lines 204-274): `none` when the slot is skipped
(no coordinates, or an exception caught by the `except` clause — a short
list entry, or the empty-polygon ValueError of `polygon_to_bbox`). -/
def processSlot (occupiedThreshold imgWidth imgHeight : ℚ) (vehicles : List Vehicle)
    (slot : Slot) : Option SlotResult :=
  let sWidth := slot.imageWidth.getD imgWidth
  let sHeight := slot.imageHeight.getD imgHeight
  if slot.coordinates.isEmpty then none
  else
    match convertCoords sWidth sHeight slot.coordinates with
    | .error _ => none
    | .ok pixelCoords =>
        match check_slot_occupancy occupiedThreshold pixelCoords vehicles with
        | none => none
        | some (isOccupied, maxIouVal, matchedVehicle) =>
            some
              { slotId := slot.slotId
                slotNumber := slot.slotNumber
                status := if isOccupied then "occupied" else "vacant"
                confidence := 1
                signalValue := maxIouVal
                vehicleMetadata :=
                  if isOccupied then matchedVehicle.map (fun v => (v, maxIouVal))
                  else none }

/-- Embedding of `YOLODetector.detect_occupancy` (yolo_detector.py lines
175-276).  The frame is modelled by its dimensions when it decodes
(`cv2.imread` returning an array) and by `none` when it does not, in which
case the ValueError propagates (`Except.error`); `vehicles` is the output
of the external detector on that frame. -/
def detect_occupancy (occupiedThreshold : ℚ) (image : Option (ℚ × ℚ))
    (vehicles : List Vehicle) (slots : List Slot) : Except String (List SlotResult) :=
  match image with
  | none => .error "Could not load image"
  | some (imgWidth, imgHeight) =>
      .ok (slots.filterMap (processSlot occupiedThreshold imgWidth imgHeight vehicles))

/-- Python `int()` applied to a rational: truncation toward zero, as used by
the tracker's pixel-coordinate conversion (parking_lot_tracker.py lines
95-98). -/
def pyInt (q : ℚ) : ℤ := if q < 0 then ⌈q⌉ else ⌊q⌋

/-- Conversion of one coordinate entry in the tracker strategy
(parking_lot_tracker.py lines 84-98), producing integer pixel points. -/
def trackerConvertCoord (w h : ℚ) : CoordEntry → Except Unit (Option (ℤ × ℤ))
  | .keyed x y => .ok (some (pyInt ((x.getD 0) * w), pyInt ((y.getD 0) * h)))
  | .pair x y => .ok (some (pyInt (x * w), pyInt (y * h)))
  | .shortList => .error ()
  | .other => .ok none

/-- The tracker's `pixel_coords` accumulation loop (parking_lot_tracker.py
lines 83-98). -/
def trackerConvertCoords (w h : ℚ) : List CoordEntry → Except Unit (List (ℤ × ℤ))
  | [] => .ok []
  | c :: cs =>
      match trackerConvertCoord w h c with
      | .error _ => .error ()
      | .ok none => trackerConvertCoords w h cs
      | .ok (some p) => (trackerConvertCoords w h cs).map (p :: ·)

/-- Embedding of `cv2.boundingRect` on integer points: upright rectangle
`(x, y, w, h)` with inclusive extents, so `w = maxX - minX + 1` and
`h = maxY - minY + 1`.  On an empty point set OpenCV raises, modelled by
`none` (caught by the per-slot try/except). -/
def boundingRect : List (ℤ × ℤ) → Option (ℤ × ℤ × ℤ × ℤ)
  | [] => none
  | p :: ps =>
      let xMin := ps.foldl (fun m q => min m q.1) p.1
      let yMin := ps.foldl (fun m q => min m q.2) p.2
      let xMax := ps.foldl (fun m q => max m q.1) p.1
      let yMax := ps.foldl (fun m q => max m q.2) p.2
      some (xMin, yMin, xMax - xMin + 1, yMax - yMin + 1)

/-- Number of set pixels of `fg` in the rectangle of width `w` and height
`h` whose top-left corner is `(x, y)`: the `cv2.countNonZero(imgCropMasked)`
of parking_lot_tracker.py line 117, with the crop of a mask modelled as
restriction of a global boolean pixel function. -/
def countInRect (fg : ℤ → ℤ → Bool) (x y : ℤ) (w h : ℕ) : ℕ :=
  ((List.range w).map (fun i =>
    ((List.range h).filter (fun j => fg (x + (i : ℤ)) (y + (j : ℤ)))).length)).sum

/-- A per-slot result record of `ParkingLotTracker.detect_occupancy`
(parking_lot_tracker.py lines 139-147). `signalValue` models the source's
occupancy_ratio key `float(count/area)`. -/
structure TrackerResult where
  slotId : Option ℕ
  slotNumber : Option ℕ
  status : String
  signalValue : ℚ
  whitePixelCount : ℕ
  totalArea : ℤ
  confidence : ℚ
deriving Repr, DecidableEq

/-- The body of the per-slot loop of `ParkingLotTracker.detect_occupancy`
(parking_lot_tracker.py lines 64-151).  `imgPro` is the preprocessed binary
frame (the cv2 adaptive-threshold pipeline, abstracted as a boolean pixel
function) and `rasterize pts` is the `cv2.fillPoly` polygon mask of the
converted points, likewise abstract; the counted crop is their pointwise
AND restricted to the clipped bounding rectangle.  `none` when the slot is
skipped (no coordinates, or an exception caught by the `except` clause). -/
def trackerProcessSlot (thresholdVal : ℚ) (imgHeight imgWidth : ℤ)
    (imgPro : ℤ → ℤ → Bool) (rasterize : List (ℤ × ℤ) → ℤ → ℤ → Bool)
    (slot : Slot) : Option TrackerResult :=
  let sWidth := slot.imageWidth.getD (imgWidth : ℚ)
  let sHeight := slot.imageHeight.getD (imgHeight : ℚ)
  if slot.coordinates.isEmpty then none
  else
    match trackerConvertCoords sWidth sHeight slot.coordinates with
    | .error _ => none
    | .ok pixelCoords =>
        match boundingRect pixelCoords with
        | none => none
        | some (x, y, w, h) =>
            let hClip := if imgHeight < y + h then imgHeight - y else h
            let wClip := if imgWidth < x + w then imgWidth - x else w
            let count := countInRect
              (fun i j => imgPro i j && rasterize pixelCoords i j) x y
              wClip.toNat hClip.toNat
            let area0 : ℤ := wClip * hClip
            let area : ℤ := if area0 = 0 then 1 else area0
            let isOccupied : Bool :=
              if 1 < thresholdVal then decide (thresholdVal ≤ (count : ℚ))
              else decide (thresholdVal < (count : ℚ) / (area : ℚ))
            some
              { slotId := slot.slotId
                slotNumber := slot.slotNumber
                status := if isOccupied then "occupied" else "vacant"
                signalValue := (count : ℚ) / (area : ℚ)
                whitePixelCount := count
                totalArea := area
                confidence := 1 }

/-- Embedding of `ParkingLotTracker.detect_occupancy`
(parking_lot_tracker.py lines 37-152).  The frame is modelled by its pixel
dimensions together with the preprocessed binary image when it decodes, and
by `none` when `cv2.imread` fails, in which case the ValueError propagates
(`Except.error`). -/
def tracker_detect_occupancy (thresholdVal : ℚ)
    (image : Option (ℤ × ℤ × (ℤ → ℤ → Bool)))
    (rasterize : List (ℤ × ℤ) → ℤ → ℤ → Bool)
    (slots : List Slot) : Except String (List TrackerResult) :=
  match image with
  | none => .error "Could not load image"
  | some (imgHeight, imgWidth, imgPro) =>
      .ok (slots.filterMap (trackerProcessSlot thresholdVal imgHeight imgWidth imgPro rasterize))

end ParkIt

namespace ParkIt

/-! ### Helper lemmas -/

/-- The first component of the vehicle fold is the running maximum of the
IoU values, for any starting accumulator. -/
lemma foldl_iouStep_fst (bb : Box) (l : List Vehicle) (a : ℚ) (o : Option Vehicle) :
    (l.foldl (iouStep bb) (a, o)).1
      = l.foldl (fun m v => max m (calculate_iou bb v.bbox)) a := by
  induction l generalizing a o with
  | nil => rfl
  | cons v vs ih =>
      by_cases h : a < calculate_iou bb v.bbox
      · simp only [List.foldl, iouStep, if_pos h, ih, max_eq_right h.le]
      · simp only [List.foldl, iouStep, if_neg h, ih, max_eq_left (not_lt.mp h)]

/-- When every vehicle in the list has IoU zero with the slot box, the
fold never leaves its starting accumulator `(0, o)`. -/
lemma foldl_iouStep_all_zero (bb : Box) (l : List Vehicle) (o : Option Vehicle)
    (h : ∀ v ∈ l, calculate_iou bb v.bbox = 0) :
    l.foldl (iouStep bb) (0, o) = (0, o) := by
  induction l with
  | nil => rfl
  | cons v vs ih =>
      have hv : calculate_iou bb v.bbox = 0 := h v (List.mem_cons_self v vs)
      have step : iouStep bb (0, o) v = (0, o) := by
        simp [iouStep, hv]
      simp only [List.foldl, step]
      exact ih (fun w hw => h w (List.mem_cons_of_mem v hw))

/-- Boxes that overlap in at most a degenerate region on some axis get
IoU zero from `calculate_iou` (either by the early return or because the
intersection area vanishes). -/
lemma zeroOverlap_iou_eq_zero (a b : Box) (h : zeroOverlap a b) :
    calculate_iou a b = 0 := by
  simp only [calculate_iou]
  split_ifs with h1 h2
  · rfl
  · push_neg at h1
    obtain ⟨hx, hy⟩ := h1
    rcases h with h | h
    · have hzero : min a.xMax b.xMax - max a.xMin b.xMin = 0 := by
        refine le_antisymm (by linarith) (by linarith)
      rw [hzero, zero_mul, zero_div]
    · have hzero : min a.yMax b.yMax - max a.yMin b.yMin = 0 := by
        refine le_antisymm (by linarith) (by linarith)
      rw [hzero, mul_zero, zero_div]
  · rfl

/-- If every vehicle has zero overlap with the slot box, the maximum IoU is 0. -/
lemma maxIou_eq_zero (bb : Box) (l : List Vehicle)
    (h : ∀ v ∈ l, calculate_iou bb v.bbox = 0) : maxIou bb l = 0 := by
  unfold maxIou
  induction l with
  | nil => rfl
  | cons v vs ih =>
      have hv : calculate_iou bb v.bbox = 0 := h v (List.mem_cons_self v vs)
      simp only [List.foldl, hv, max_self]
      exact ih (fun w hw => h w (List.mem_cons_of_mem v hw))

/-- Explicit evaluation of the tracker's per-slot loop body once the
coordinate conversion and the bounding rectangle are known. -/
lemma trackerProcessSlot_eq (thresholdVal : ℚ) (imgHeight imgWidth : ℤ)
    (imgPro : ℤ → ℤ → Bool) (rasterize : List (ℤ × ℤ) → ℤ → ℤ → Bool)
    (slot : Slot) (pts : List (ℤ × ℤ)) (x y w h : ℤ)
    (hne : slot.coordinates.isEmpty = false)
    (hconv : trackerConvertCoords (slot.imageWidth.getD (imgWidth : ℚ))
        (slot.imageHeight.getD (imgHeight : ℚ)) slot.coordinates = .ok pts)
    (hbr : boundingRect pts = some (x, y, w, h)) :
    trackerProcessSlot thresholdVal imgHeight imgWidth imgPro rasterize slot
      = some
        (let hClip := if imgHeight < y + h then imgHeight - y else h
         let wClip := if imgWidth < x + w then imgWidth - x else w
         let count := countInRect (fun i j => imgPro i j && rasterize pts i j) x y
           wClip.toNat hClip.toNat
         let area0 : ℤ := wClip * hClip
         let area : ℤ := if area0 = 0 then 1 else area0
         let isOccupied : Bool :=
           if 1 < thresholdVal then decide (thresholdVal ≤ (count : ℚ))
           else decide (thresholdVal < (count : ℚ) / (area : ℚ))
         { slotId := slot.slotId
           slotNumber := slot.slotNumber
           status := if isOccupied then "occupied" else "vacant"
           signalValue := (count : ℚ) / (area : ℚ)
           whitePixelCount := count
           totalArea := area
           confidence := 1 }) := by
  simp only [trackerProcessSlot, hne, Bool.false_eq_true, if_false, hconv, hbr]

/-! ### Claim theorems -/

/-- C2: for every slot whose conversion and bounding rectangle succeed,
letting `count` be the number of set pixels of the masked binary image
inside the clipped bounding rectangle and `area` the clipped rectangle's
width times height floored to 1 when zero: the produced record reports
occupied exactly when `count >= threshold` if the configured threshold
exceeds 1.0 and exactly when `count/area > threshold` otherwise, and it
reports `count/area` as the signal value (and `count`, `area` themselves)
in both cases. -/
theorem tracker_decision_rule (thresholdVal : ℚ) (imgHeight imgWidth : ℤ)
    (imgPro : ℤ → ℤ → Bool) (rasterize : List (ℤ × ℤ) → ℤ → ℤ → Bool)
    (slot : Slot) (pts : List (ℤ × ℤ)) (x y w h wClip hClip : ℤ)
    (count : ℕ) (area : ℤ) (r : TrackerResult)
    (hconv : trackerConvertCoords (slot.imageWidth.getD (imgWidth : ℚ))
        (slot.imageHeight.getD (imgHeight : ℚ)) slot.coordinates = .ok pts)
    (hbr : boundingRect pts = some (x, y, w, h))
    (hwc : wClip = if imgWidth < x + w then imgWidth - x else w)
    (hhc : hClip = if imgHeight < y + h then imgHeight - y else h)
    (hcount : count = countInRect (fun i j => imgPro i j && rasterize pts i j)
        x y wClip.toNat hClip.toNat)
    (harea : area = if wClip * hClip = 0 then 1 else wClip * hClip)
    (hres : trackerProcessSlot thresholdVal imgHeight imgWidth imgPro rasterize slot
        = some r) :
    r.signalValue = (count : ℚ) / (area : ℚ)
    ∧ r.whitePixelCount = count
    ∧ r.totalArea = area
    ∧ (r.status = "occupied"
        ↔ if 1 < thresholdVal then thresholdVal ≤ (count : ℚ)
          else thresholdVal < (count : ℚ) / (area : ℚ)) := by
  subst hwc hhc hcount harea
  have hne : slot.coordinates.isEmpty = false := by
    cases hemp : slot.coordinates.isEmpty
    · rfl
    · rw [trackerProcessSlot] at hres
      simp [hemp] at hres
  rw [trackerProcessSlot_eq thresholdVal imgHeight imgWidth imgPro rasterize
      slot pts x y w h hne hconv hbr] at hres
  replace hres := Option.some.inj hres
  subst hres
  refine ⟨rfl, rfl, rfl, ?_⟩
  by_cases h1 : 1 < thresholdVal
  · by_cases h2 : thresholdVal ≤
        ((countInRect (fun i j => imgPro i j && rasterize pts i j) x y
          (if imgWidth < x + w then imgWidth - x else w).toNat
          (if imgHeight < y + h then imgHeight - y else h).toNat : ℕ) : ℚ) <;>
      simp [h1, h2]
  · by_cases h2 : thresholdVal <
        ((countInRect (fun i j => imgPro i j && rasterize pts i j) x y
          (if imgWidth < x + w then imgWidth - x else w).toNat
          (if imgHeight < y + h then imgHeight - y else h).toNat : ℕ) : ℚ)
        / ((if (if imgWidth < x + w then imgWidth - x else w)
              * (if imgHeight < y + h then imgHeight - y else h) = 0 then 1
            else (if imgWidth < x + w then imgWidth - x else w)
              * (if imgHeight < y + h then imgHeight - y else h) : ℤ) : ℚ) <;>
      simp [h1, h2]

/-- C4: the IoU computation is symmetric in its two boxes. -/
theorem calculate_iou_comm (a b : Box) : calculate_iou a b = calculate_iou b a := by
  simp only [calculate_iou]
  rw [min_comm b.xMax a.xMax, min_comm b.yMax a.yMax,
      max_comm b.xMin a.xMin, max_comm b.yMin a.yMin,
      add_comm ((b.xMax - b.xMin) * (b.yMax - b.yMin))
        ((a.xMax - a.xMin) * (a.yMax - a.yMin))]

/-- C5: for every pair of boxes the value returned by `calculate_iou` lies
in the closed interval `[0, 1]`; this holds even for degenerate or
inverted boxes, because any strictly inverted axis triggers the early
return. -/
theorem calculate_iou_nonneg_le_one (a b : Box) :
    0 ≤ calculate_iou a b ∧ calculate_iou a b ≤ 1 := by
  simp only [calculate_iou]
  split_ifs with h1 h2
  · exact ⟨le_refl 0, by norm_num⟩
  · push_neg at h1
    obtain ⟨hx, hy⟩ := h1
    have hIx : (0 : ℚ) ≤ min a.xMax b.xMax - max a.xMin b.xMin := by linarith
    have hIy : (0 : ℚ) ≤ min a.yMax b.yMax - max a.yMin b.yMin := by linarith
    have hI : (0 : ℚ) ≤ (min a.xMax b.xMax - max a.xMin b.xMin)
        * (min a.yMax b.yMax - max a.yMin b.yMin) := mul_nonneg hIx hIy
    have haw : min a.xMax b.xMax - max a.xMin b.xMin ≤ a.xMax - a.xMin := by
      have h3 := min_le_left a.xMax b.xMax
      have h4 := le_max_left a.xMin b.xMin
      linarith
    have hah : min a.yMax b.yMax - max a.yMin b.yMin ≤ a.yMax - a.yMin := by
      have h3 := min_le_left a.yMax b.yMax
      have h4 := le_max_left a.yMin b.yMin
      linarith
    have hbw : min a.xMax b.xMax - max a.xMin b.xMin ≤ b.xMax - b.xMin := by
      have h3 := min_le_right a.xMax b.xMax
      have h4 := le_max_right a.xMin b.xMin
      linarith
    have hbh : min a.yMax b.yMax - max a.yMin b.yMin ≤ b.yMax - b.yMin := by
      have h3 := min_le_right a.yMax b.yMax
      have h4 := le_max_right a.yMin b.yMin
      linarith
    have hIA : (min a.xMax b.xMax - max a.xMin b.xMin)
        * (min a.yMax b.yMax - max a.yMin b.yMin)
        ≤ (a.xMax - a.xMin) * (a.yMax - a.yMin) :=
      mul_le_mul haw hah hIy (hIx.trans haw)
    have hIB : (min a.xMax b.xMax - max a.xMin b.xMin)
        * (min a.yMax b.yMax - max a.yMin b.yMin)
        ≤ (b.xMax - b.xMin) * (b.yMax - b.yMin) :=
      mul_le_mul hbw hbh hIy (hIx.trans hbw)
    constructor
    · exact div_nonneg hI h2.le
    · rw [div_le_one h2]
      linarith
  · exact ⟨le_refl 0, by norm_num⟩

/-- C2 witness: a one-point slot on an all-foreground 4x4 frame with ratio
threshold 0.5: the clipped rectangle is a single pixel, count 1, area 1,
ratio 1 above the threshold, so the record is occupied with signal 1. -/
theorem tracker_decision_rule_witness :
    (⟨some 3, some 3, "occupied", 1, 1, 1, 1⟩ : TrackerResult).status = "occupied"
      ↔ (if (1 : ℚ) < 1 / 2 then (1 / 2 : ℚ) ≤ ((1 : ℕ) : ℚ)
         else (1 / 2 : ℚ) < ((1 : ℕ) : ℚ) / (((1 : ℤ)) : ℚ)) :=
  (tracker_decision_rule (1 / 2) 4 4 (fun _ _ => true) (fun _ _ _ => true)
    ⟨some 3, some 3, [.pair 0 0], none, none⟩ [(0, 0)] 0 0 1 1 1 1 1 1
    ⟨some 3, some 3, "occupied", 1, 1, 1, 1⟩
    (by norm_num [trackerConvertCoords, trackerConvertCoord, pyInt, Except.map])
    (by norm_num [boundingRect])
    (by norm_num)
    (by norm_num)
    (by norm_num [countInRect, List.range_succ, List.range_zero])
    (by norm_num)
    (by norm_num [trackerProcessSlot, trackerConvertCoords, trackerConvertCoord,
      pyInt, Except.map, boundingRect, countInRect, List.range_succ, List.range_zero])).2.2.2

/-- C6 counterexample: for the identical pair of degenerate (zero-area)
boxes `[0,0,0,0]`, `calculate_iou` returns 0 via the `union_area > 0`
guard, not 1.0, so the claim that identical boxes always give 1.0 fails. -/
theorem calculate_iou_identical_degenerate_ne_one :
    calculate_iou ⟨0, 0, 0, 0⟩ ⟨0, 0, 0, 0⟩ ≠ 1 := by
  norm_num [calculate_iou]

/-- C6 (amended): `calculate_iou` returns 0 for every pair of boxes whose
extents overlap in at most a point on some axis, and returns 1.0 for every
pair of identical boxes of positive width and height. -/
theorem calculate_iou_disjoint_zero_identical_one :
    (∀ a b : Box, zeroOverlap a b → calculate_iou a b = 0)
    ∧ (∀ a : Box, a.xMin < a.xMax → a.yMin < a.yMax → calculate_iou a a = 1) := by
  constructor
  · exact zeroOverlap_iou_eq_zero
  · intro a hx hy
    simp only [calculate_iou, min_self, max_self]
    have hA : (0 : ℚ) < (a.xMax - a.xMin) * (a.yMax - a.yMin) :=
      mul_pos (sub_pos.mpr hx) (sub_pos.mpr hy)
    split_ifs with h1 h2
    · rcases h1 with h | h
      · exact absurd h (not_lt.mpr hx.le)
      · exact absurd h (not_lt.mpr hy.le)
    · rw [add_sub_cancel_right]
      exact div_self hA.ne'
    · exfalso
      apply h2
      rw [add_sub_cancel_right]
      exact hA

/-- C6 witness: the amended claim evaluated at the disjoint pair of
scenario B and at the identical unit-scaled box of scenario A. -/
theorem calculate_iou_disjoint_zero_identical_one_witness :
    calculate_iou ⟨0, 0, 10, 10⟩ ⟨20, 20, 30, 30⟩ = 0
    ∧ calculate_iou ⟨0, 0, 10, 10⟩ ⟨0, 0, 10, 10⟩ = 1 :=
  ⟨calculate_iou_disjoint_zero_identical_one.1 ⟨0, 0, 10, 10⟩ ⟨20, 20, 30, 30⟩
      (by norm_num [zeroOverlap, min_def, max_def]),
   calculate_iou_disjoint_zero_identical_one.2 ⟨0, 0, 10, 10⟩ (by norm_num) (by norm_num)⟩

/-- C3: scenario C — for slot bounding box `[0,0,10,10]` and vehicle box
`[5,5,15,15]` the IoU is `25/175`; with occupancy threshold 0.30 the slot's
status is `vacant`, with threshold 0.10 it is `occupied` (and only in the
occupied case the vehicle metadata is attached). -/
theorem scenario_c_iou_and_status :
    calculate_iou ⟨0, 0, 10, 10⟩ ⟨5, 5, 15, 15⟩ = 25 / 175
    ∧ processSlot (30 / 100) 1 1 [⟨⟨5, 5, 15, 15⟩, 9 / 10⟩]
        ⟨some 1, some 1, [.pair 0 0, .pair 10 0, .pair 10 10, .pair 0 10], none, none⟩
      = some ⟨some 1, some 1, "vacant", 1, 25 / 175, none⟩
    ∧ processSlot (10 / 100) 1 1 [⟨⟨5, 5, 15, 15⟩, 9 / 10⟩]
        ⟨some 1, some 1, [.pair 0 0, .pair 10 0, .pair 10 10, .pair 0 10], none, none⟩
      = some ⟨some 1, some 1, "occupied", 1, 25 / 175,
              some (⟨⟨5, 5, 15, 15⟩, 9 / 10⟩, 25 / 175)⟩ := by
  refine ⟨by norm_num [calculate_iou, min_def, max_def], ?_, ?_⟩ <;>
    norm_num [processSlot, convertCoords, convertCoord, Except.map,
      check_slot_occupancy, iouStep, polygon_to_bbox, calculate_iou, min_def, max_def]

/-- C8: when the frame cannot be decoded, both strategies raise the
ValueError to the caller and produce no result records. -/
theorem unreadable_image_propagates (thrA thrB : ℚ) (vehicles : List Vehicle)
    (slotsA slotsB : List Slot) (rasterize : List (ℤ × ℤ) → ℤ → ℤ → Bool) :
    detect_occupancy thrA none vehicles slotsA = .error "Could not load image"
    ∧ tracker_detect_occupancy thrB none rasterize slotsB
      = .error "Could not load image" :=
  ⟨rfl, rfl⟩

/-- C9: a keyed coordinate entry with a missing component is not skipped:
`coord.get` substitutes the default 0 and the entry is still converted to a
pixel point with 0 for the missing component, in both strategies. -/
theorem missing_key_defaults_zero (w h xv yv : ℚ) :
    convertCoord w h (.keyed none (some yv)) = .ok (some (0, yv * h))
    ∧ convertCoord w h (.keyed (some xv) none) = .ok (some (xv * w, 0))
    ∧ trackerConvertCoord w h (.keyed none (some yv))
      = .ok (some (0, pyInt (yv * h)))
    ∧ trackerConvertCoord w h (.keyed (some xv) none)
      = .ok (some (pyInt (xv * w), 0)) := by
  refine ⟨?_, ?_, ?_, ?_⟩ <;> simp [convertCoord, trackerConvertCoord, pyInt]

/-- C1: for every slot polygon (with a well-defined bounding box) and every
list of vehicle boxes, `check_slot_occupancy` reports occupied exactly when
the maximum IoU between the slot's bounding box and the vehicle boxes
(the running maximum starting at 0.0) reaches the occupancy threshold;
and whenever the threshold is positive — as the default 0.30 is — a slot
whose bounding box overlaps no vehicle box is reported vacant. -/
theorem check_slot_occupancy_occupied_iff (thr : ℚ) (poly : List (ℚ × ℚ))
    (vehicles : List Vehicle) (bb : Box)
    (hbb : polygon_to_bbox poly = some bb) :
    (∃ mv, check_slot_occupancy thr poly vehicles
        = some (decide (thr ≤ maxIou bb vehicles), maxIou bb vehicles, mv))
    ∧ (0 < thr → (∀ v ∈ vehicles, zeroOverlap bb v.bbox) →
        check_slot_occupancy thr poly vehicles = some (false, 0, none)) := by
  constructor
  · refine ⟨(vehicles.foldl (iouStep bb) (0, none)).2, ?_⟩
    have hfst := foldl_iouStep_fst bb vehicles 0 none
    simp only [check_slot_occupancy, hbb, Option.map_some', maxIou, hfst]
  · intro hthr hzero
    have hall : ∀ v ∈ vehicles, calculate_iou bb v.bbox = 0 :=
      fun v hv => zeroOverlap_iou_eq_zero bb v.bbox (hzero v hv)
    have hfold := foldl_iouStep_all_zero bb vehicles none hall
    simp only [check_slot_occupancy, hbb, Option.map_some', hfold]
    simp [decide_eq_false (not_le.mpr hthr)]

/-- C1 witness: the default threshold 0.30, the square slot of the spec's
scenarios and one far-away vehicle: the bounding box is computed, no box
overlaps, and the slot comes back vacant with max IoU 0. -/
theorem check_slot_occupancy_occupied_iff_witness :
    check_slot_occupancy (30 / 100) [(0, 0), (10, 0), (10, 10), (0, 10)]
      [⟨⟨20, 20, 30, 30⟩, 1 / 2⟩] = some (false, 0, none) :=
  (check_slot_occupancy_occupied_iff (30 / 100) [(0, 0), (10, 0), (10, 10), (0, 10)]
      [⟨⟨20, 20, 30, 30⟩, 1 / 2⟩] ⟨0, 0, 10, 10⟩
      (by norm_num [polygon_to_bbox, min_def, max_def])).2
    (by norm_num)
    (by
      intro v hv
      simp only [List.mem_singleton] at hv
      subst hv
      norm_num [zeroOverlap, min_def, max_def])

/-- C10: the matched vehicle is recorded only on a strict improvement of
the running maximum, which starts at 0.0; hence a slot whose IoU with every
detected vehicle is 0 gets `matched_vehicle = None` even though detections
exist, with occupancy threshold 0 it is reported occupied, and the result
record built by `detect_occupancy` carries no vehicle metadata. -/
theorem zero_max_iou_no_matched_vehicle (poly : List (ℚ × ℚ))
    (vehicles : List Vehicle) (bb : Box)
    (hbb : polygon_to_bbox poly = some bb)
    (hzero : ∀ v ∈ vehicles, calculate_iou bb v.bbox = 0) :
    (∀ thr : ℚ, check_slot_occupancy thr poly vehicles
        = some (decide (thr ≤ 0), 0, none))
    ∧ check_slot_occupancy 0 poly vehicles = some (true, 0, none)
    ∧ ∀ (imgW imgH : ℚ) (slot : Slot),
        slot.coordinates ≠ []
        → convertCoords (slot.imageWidth.getD imgW) (slot.imageHeight.getD imgH)
            slot.coordinates = .ok poly
        → processSlot 0 imgW imgH vehicles slot
          = some ⟨slot.slotId, slot.slotNumber, "occupied", 1, 0, none⟩ := by
  have hfold := foldl_iouStep_all_zero bb vehicles none hzero
  have hmain : ∀ thr : ℚ, check_slot_occupancy thr poly vehicles
      = some (decide (thr ≤ 0), 0, none) := by
    intro thr
    simp only [check_slot_occupancy, hbb, Option.map_some', hfold]
  refine ⟨hmain, ?_, ?_⟩
  · have := hmain 0
    simpa using this
  · intro imgW imgH slot hne hconv
    have hemp : slot.coordinates.isEmpty = false := by
      cases h : slot.coordinates with
      | nil => exact absurd h hne
      | cons a l => rfl
    simp only [processSlot, hemp, Bool.false_eq_true, if_false, hconv]
    rw [hmain 0]
    simp

/-- C10 witness: a unit square slot and a single far-away vehicle
detection: reported occupied at threshold 0 with no matched vehicle. -/
theorem zero_max_iou_no_matched_vehicle_witness :
    check_slot_occupancy 0 [(0, 0), (1, 0), (1, 1), (0, 1)]
      [⟨⟨5, 5, 6, 6⟩, 1 / 2⟩] = some (true, 0, none) :=
  (zero_max_iou_no_matched_vehicle [(0, 0), (1, 0), (1, 1), (0, 1)]
      [⟨⟨5, 5, 6, 6⟩, 1 / 2⟩] ⟨0, 0, 1, 1⟩
      (by norm_num [polygon_to_bbox, min_def, max_def])
      (by
        intro v hv
        simp only [List.mem_singleton] at hv
        subst hv
        norm_num [calculate_iou, min_def, max_def])).2.1

/-- C7 counterexample: a slot with only 2 coordinate points is not excluded
from the results — `polygon_to_bbox` happily takes the min/max of two
points, so the evaluation returns a result record for it. -/
theorem two_point_slot_included :
    detect_occupancy (30 / 100) (some (100, 100)) []
      [⟨some 5, some 5, [.pair 0 0, .pair (1 / 2) (1 / 2)], none, none⟩]
    = .ok [⟨some 5, some 5, "vacant", 1, 0, none⟩] := by
  norm_num [detect_occupancy, List.filterMap_cons, processSlot, convertCoords,
    convertCoord, Except.map, check_slot_occupancy, iouStep, polygon_to_bbox,
    min_def, max_def]

/-- C7 (amended): a slot is excluded from the results — while evaluation of
the other slots continues — exactly in the degenerate cases the code
handles: an empty coordinate list, a wrong-arity list entry (which raises
and is caught), or a coordinate list with zero usable points after
skipping unrecognized entries (the empty-polygon ValueError); a slot with
1 or 2 usable points is still evaluated. -/
theorem unusable_slot_skipped (thr imgW imgH : ℚ) (vehicles : List Vehicle)
    (s : Slot) (pre post : List Slot)
    (h : s.coordinates = []
      ∨ convertCoords (s.imageWidth.getD imgW) (s.imageHeight.getD imgH)
          s.coordinates = .error ()
      ∨ convertCoords (s.imageWidth.getD imgW) (s.imageHeight.getD imgH)
          s.coordinates = .ok []) :
    detect_occupancy thr (some (imgW, imgH)) vehicles (pre ++ s :: post)
      = detect_occupancy thr (some (imgW, imgH)) vehicles (pre ++ post) := by
  have hs : processSlot thr imgW imgH vehicles s = none := by
    rcases h with h | h | h
    · simp [processSlot, h]
    · by_cases hemp : s.coordinates.isEmpty <;>
        simp [processSlot, hemp, h]
    · by_cases hemp : s.coordinates.isEmpty <;>
        simp [processSlot, hemp, h, check_slot_occupancy, polygon_to_bbox]
  simp [detect_occupancy, List.filterMap_append, List.filterMap_cons, hs]

/-- C7 witness: a slot whose only coordinate entry is of unrecognized type
(zero usable points) disappears from the results while the surrounding
well-formed slot is still evaluated. -/
theorem unusable_slot_skipped_witness :
    detect_occupancy (30 / 100) (some ((100 : ℚ), (100 : ℚ))) []
      [⟨some 1, some 1, [.other], none, none⟩,
       ⟨some 2, some 2, [.pair 0 0, .pair (1 / 2) (1 / 2)], none, none⟩]
    = detect_occupancy (30 / 100) (some ((100 : ℚ), (100 : ℚ))) []
      [⟨some 2, some 2, [.pair 0 0, .pair (1 / 2) (1 / 2)], none, none⟩] :=
  unusable_slot_skipped (30 / 100) 100 100 [] ⟨some 1, some 1, [.other], none, none⟩
    [] [⟨some 2, some 2, [.pair 0 0, .pair (1 / 2) (1 / 2)], none, none⟩]
    (Or.inr (Or.inr (by simp [convertCoords, convertCoord])))

end ParkIt
